import Mathlib

/-!
# Wallet Authentication System — shallow embedding

A shallow embedding of the wallet authentication controller of
`wallet-auth-system/wallet-auth.js` (class `WalletAuthController`), together
with the duplicate controller variant found in the repository (the unnamed
copy, referred to here with a `V0` suffix).  JavaScript values are modelled
as follows:

* provider objects (`window.solana`, `window.ethereum`, `window.solflare`)
  are `Option`-wrapped structures in an `Env`;
* a thrown JS `Error` is a `JsError` carrying the optional numeric `code`
  and the `message` string;
* `async` provider calls are modelled by their eventual outcome,
  `Except JsError α` (rejected / resolved);
* a public-key value is modelled by the string its `toString()` produces;
  an absent or falsy value is `none`.  JavaScript truthiness of such a
  value is `truthyStr` (empty string = falsy);
* `localStorage` under the single key `micro_wallet_connection` is a
  `Stored` value: `absent` (key missing), `malformed raw` (a stored string
  on which `JSON.parse` — or the subsequent field access — throws), or
  `record r` (a parsed JSON object, each expected field optional, matching
  a parse that succeeded but may have produced an object missing fields).
-/

namespace WalletAuth

/-- Substring test on lists (used to model JavaScript
`String.prototype.includes`). -/
def listContains : List Char → List Char → Bool
  | _, [] => false
  | needle, c :: cs =>
    needle.isPrefixOf (c :: cs) || listContains needle cs

/-- JavaScript `hay.includes(needle)`: `needle` occurs as a contiguous
substring of `hay` (an empty needle always matches). -/
def strIncludes (needle hay : String) : Bool :=
  needle.data.isEmpty || listContains needle.data hay.data

/-- JavaScript truthiness of a (string-imaged) value: present and not the
empty string. -/
def truthyStr : Option String → Bool
  | none => false
  | some s => !(s == "")

/-- A thrown JavaScript `Error`: optional numeric `code` plus `message`. -/
structure JsError where
  code : Option Int
  message : String
deriving Repr, DecidableEq

instance {ε α : Type} [DecidableEq ε] [DecidableEq α] : DecidableEq (Except ε α) :=
  fun a b =>
    match a, b with
    | .error e, .error f =>
      if h : e = f then isTrue (by rw [h])
      else isFalse (by intro hh; cases hh; exact h rfl)
    | .ok x, .ok y =>
      if h : x = y then isTrue (by rw [h])
      else isFalse (by intro hh; cases hh; exact h rfl)
    | .error _, .ok _ => isFalse (by intro hh; cases hh)
    | .ok _, .error _ => isFalse (by intro hh; cases hh)

/-- A normalized connection result `{type, publicKey, address}` as built by
the three adapters (`connectPhantom` / `connectSolflare` /
`connectMetaMask`) and by `verifyWalletConnection`. -/
structure Wallet where
  type : String
  publicKey : String
  address : String
deriving Repr, DecidableEq

/-- `window.solana` (Phantom-style provider). `connectResult` is the
outcome of `solana.connect()`, `connectTrustedResult` the outcome of
`solana.connect({ onlyIfTrusted: true })`; a resolved value carries
`response.publicKey` (as its string image, `none` when the response or its
`publicKey` is falsy). -/
structure SolanaProvider where
  isPhantom : Bool
  connectResult : Except JsError (Option String)
  connectTrustedResult : Except JsError (Option String)
deriving Repr, DecidableEq

/-- `window.ethereum` (MetaMask-style provider). `requestAccountsResult`
is the outcome of `ethereum.request({method: 'eth_requestAccounts'})`,
`accountsResult` of `ethereum.request({method: 'eth_accounts'})`; a falsy
or empty accounts array is modelled by `[]` (both take the same branch in
the source: `accounts && accounts.length > 0` fails). -/
structure EthereumProvider where
  isMetaMask : Bool
  requestAccountsResult : Except JsError (List String)
  accountsResult : Except JsError (List String)
deriving Repr, DecidableEq

/-- `window.solflare`. `publicKey` is the provider's own exposed property,
`wallet` its nested wallet object (`some wpk` = object present with
`publicKey` image `wpk`), `connectResult` the outcome of
`solflare.connect()` carrying `response.publicKey`.  A rejection of
`solflare.disconnect()` is swallowed by the source (inner try/catch at the
"Reset state if already connected" block) and has no observable effect, so
it is not modelled. -/
structure SolflareProvider where
  isConnected : Bool
  publicKey : Option String
  wallet : Option (Option String)
  connectResult : Except JsError (Option String)
deriving Repr, DecidableEq

/-- The browser environment visible to the controller: the three injected
providers (each possibly absent) and the current `Date.now()` clock. -/
structure Env where
  solana : Option SolanaProvider
  ethereum : Option EthereumProvider
  solflare : Option SolflareProvider
  now : Int
deriving Repr, DecidableEq

/-! ## Interactive connect adapters (`wallet-auth.js` lines 457–577;
the unnamed duplicate contains textually identical adapters, so these
definitions serve both variants). -/

def phantomNotDetectedMsg : String :=
  "Phantom wallet not detected. Please ensure it is installed and enabled."

def solflareNotDetectedMsg : String :=
  "Solflare wallet not detected. Please ensure it is installed and enabled."

def metamaskNotDetectedMsg : String :=
  "MetaMask wallet not detected. Please ensure it is installed and enabled."

/-- Body of the `try` block of `connectPhantom`: detection check, the
`solana.connect()` call, and the `response && response.publicKey` test. -/
def connectPhantomBody (env : Env) : Except JsError Wallet :=
  match env.solana with
  | none => .error ⟨none, phantomNotDetectedMsg⟩
  | some sol =>
    if !sol.isPhantom then .error ⟨none, phantomNotDetectedMsg⟩
    else
      match sol.connectResult with
      | .error e => .error e
      | .ok pk =>
        if truthyStr pk then .ok ⟨"phantom", pk.getD "", pk.getD ""⟩
        else .error ⟨none, "Failed to get public key from Phantom"⟩

/-- The `catch` block of `connectPhantom`: rejection detection
(`error.code === 4001 || error.message.includes('User rejected')`),
otherwise the generic re-wrap. -/
def phantomCatch (e : JsError) : String :=
  if e.code == some 4001 || strIncludes "User rejected" e.message then
    "Connection rejected by user"
  else
    "Connection failed: " ++ e.message

/-- `connectPhantom` (lines 457–486): result is the returned wallet or the
message of the error finally thrown to `connectWallet`. -/
def connectPhantom (env : Env) : Except String Wallet :=
  match connectPhantomBody env with
  | .ok w => .ok w
  | .error e => .error (phantomCatch e)

/-- The `let publicKey` fallback chain of `connectSolflare` (lines
510–518): the direct response field, then the provider's own exposed
property, then the provider's nested wallet object; each step guarded by
JavaScript truthiness. -/
def solflareFallbackKey (sf : SolflareProvider) (respPk : Option String) :
    Option String :=
  if truthyStr respPk then respPk
  else if truthyStr sf.publicKey then sf.publicKey
  else
    match sf.wallet with
    | some wpk => if truthyStr wpk then wpk else none
    | none => none

/-- Body of the `try` block of `connectSolflare` (lines 491–529):
detection check, optional swallowed disconnect, `solflare.connect()`, and
the three-step public-key fallback chain followed by the `if (publicKey)`
truthiness test. -/
def connectSolflareBody (env : Env) : Except JsError Wallet :=
  match env.solflare with
  | none => .error ⟨none, solflareNotDetectedMsg⟩
  | some sf =>
    match sf.connectResult with
    | .error e => .error e
    | .ok respPk =>
      if truthyStr (solflareFallbackKey sf respPk) then
        .ok ⟨"solflare", (solflareFallbackKey sf respPk).getD "",
          (solflareFallbackKey sf respPk).getD ""⟩
      else .error ⟨none, "Failed to get public key from Solflare"⟩

/-- The `catch` block of `connectSolflare`:
`error.code === 4001 || error.message.includes('rejected')`. -/
def solflareCatch (e : JsError) : String :=
  if e.code == some 4001 || strIncludes "rejected" e.message then
    "Connection rejected by user"
  else
    "Connection failed: " ++ e.message

/-- `connectSolflare` (lines 491–539). -/
def connectSolflare (env : Env) : Except String Wallet :=
  match connectSolflareBody env with
  | .ok w => .ok w
  | .error e => .error (solflareCatch e)

/-- Body of the `try` block of `connectMetaMask` (lines 544–565):
detection check, `eth_requestAccounts`, `accounts.length > 0` test. -/
def connectMetaMaskBody (env : Env) : Except JsError Wallet :=
  match env.ethereum with
  | none => .error ⟨none, metamaskNotDetectedMsg⟩
  | some eth =>
    if !eth.isMetaMask then .error ⟨none, metamaskNotDetectedMsg⟩
    else
      match eth.requestAccountsResult with
      | .error e => .error e
      | .ok [] => .error ⟨none, "No accounts found"⟩
      | .ok (a :: _) => .ok ⟨"metamask", a, a⟩

/-- The `catch` block of `connectMetaMask`: code 4001 → user rejection,
code -32002 → request already pending, otherwise the generic re-wrap. -/
def metamaskCatch (e : JsError) : String :=
  if e.code == some 4001 then "Connection rejected by user"
  else if e.code == some (-32002) then "Connection request already pending"
  else "Connection failed: " ++ e.message

/-- `connectMetaMask` (lines 544–577). -/
def connectMetaMask (env : Env) : Except String Wallet :=
  match connectMetaMaskBody env with
  | .ok w => .ok w
  | .error e => .error (metamaskCatch e)

/-- The `switch (walletType)` dispatch inside `connectWallet`
(lines 394–406); an unsupported type throws `'Unsupported wallet type'`. -/
def connectAdapter (env : Env) (walletType : String) : Except String Wallet :=
  if walletType == "phantom" then connectPhantom env
  else if walletType == "solflare" then connectSolflare env
  else if walletType == "metamask" then connectMetaMask env
  else .error "Unsupported wallet type"

/-! ## Persistent storage (`localStorage` key `micro_wallet_connection`) -/

/-- A parsed persisted object.  Each field is optional: `JSON.parse` may
succeed on an object that lacks any of the fields the controller reads
(`connectionData.timestamp`, `connectionData.walletType`); a missing or
non-numeric `timestamp` is `none` (its JS arithmetic yields `NaN`). -/
structure StoredRecord where
  walletType : Option String
  timestamp : Option Int
  publicKey : Option String
  address : Option String
deriving Repr, DecidableEq

/-- Contents of `localStorage` under `micro_wallet_connection`:
absent key, a stored string whose `JSON.parse` (or the field access on
its primitive result) throws, or a successfully parsed object. -/
inductive Stored where
  | absent
  | malformed (raw : String)
  | record (rec : StoredRecord)
deriving Repr, DecidableEq

/-- `storeWalletConnection` (lines 613–627): builds
`{walletType, timestamp: Date.now(), publicKey, address}` and overwrites
the single storage key with it. -/
def storeWalletConnection (now : Int) (w : Wallet) : Stored :=
  .record ⟨some w.type, some now, some w.publicKey, some w.address⟩

/-- `clearStoredConnection` (lines 632–639): `removeItem` on the key. -/
def clearStoredConnection : Stored := .absent

/-! ## Silent verification and the startup check -/

/-- `verifyWalletConnection` (lines 235–302).  `some w` models the paths
that set `this.connectedWallet = w`, `this.isAuthenticated = true` and
return `true`; `none` models every `return false` path (provider absent,
wrong self-identification, provider call rejected — caught and logged —
or a falsy account/key).  The `switch` falls through to `return false`
for any wallet type other than the three known ones (including a missing
`walletType` field, modelled by `none`). -/
def verifyWalletConnection (env : Env) (walletType : Option String) :
    Option Wallet :=
  if walletType == some "phantom" then
    match env.solana with
    | some sol =>
      if sol.isPhantom then
        match sol.connectTrustedResult with
        | .ok pk =>
          if truthyStr pk then some ⟨"phantom", pk.getD "", pk.getD ""⟩
          else none
        | .error _ => none
      else none
    | none => none
  else if walletType == some "metamask" then
    match env.ethereum with
    | some eth =>
      if eth.isMetaMask then
        match eth.accountsResult with
        | .ok (a :: _) => some ⟨"metamask", a, a⟩
        | .ok [] => none
        | .error _ => none
      else none
    | none => none
  else if walletType == some "solflare" then
    match env.solflare with
    | some sf =>
      if sf.isConnected then
        if truthyStr sf.publicKey then
          some ⟨"solflare", sf.publicKey.getD "", sf.publicKey.getD ""⟩
        else none
      else none
    | none => none
  else none

/-- Outcome of `checkExistingConnection`: the returned boolean, the
resulting storage contents, and the fields the call may set on the
controller (`connectedWallet`, `isAuthenticated`). -/
structure CheckResult where
  result : Bool
  storage : Stored
  connectedWallet : Option Wallet
  isAuthenticated : Bool
deriving Repr, DecidableEq

/-- Number of milliseconds in the expiry window:
`24 * 60 * 60 * 1000` from line 217. -/
def expiryMs : Int := 24 * 60 * 60 * 1000

/-- `checkExistingConnection` (lines 206–230).
* absent key → `false`, storage untouched;
* unparseable record → the `catch` branch: `removeItem`, `false`;
* parsed record with a numeric `timestamp` older than 24 h →
  `removeItem`, `false`;
* otherwise (including a record with no usable `timestamp`, whose
  `now - undefined > 86400000` comparison is false because of `NaN`) →
  the result of `verifyWalletConnection`, with storage left untouched. -/
def checkExistingConnection (env : Env) (storage : Stored) : CheckResult :=
  match storage with
  | .absent => ⟨false, .absent, none, false⟩
  | .malformed _ => ⟨false, .absent, none, false⟩
  | .record rec =>
    let verified :=
      match verifyWalletConnection env rec.walletType with
      | some w => CheckResult.mk true (.record rec) (some w) true
      | none => ⟨false, .record rec, none, false⟩
    match rec.timestamp with
    | some ts => if env.now - ts > expiryMs then ⟨false, .absent, none, false⟩ else verified
    | none => verified

/-! ## Screen states and the controller state -/

/-- The three screens of the gate (`loadingScreen` / `authScreen` /
`mainContent`): exactly one is visible once initialization settles. -/
inductive Screen where
  | Loading
  | Authenticating
  | Authenticated
deriving Repr, DecidableEq

/-- `init` (lines 31–46): a truthy `checkExistingConnection` leads to
`skipToMainContent` (main content shown — `Authenticated`), otherwise to
`startLoadingSequence` (`Loading`). -/
def initScreen (env : Env) (storage : Stored) : Screen :=
  if (checkExistingConnection env storage).result then .Authenticated
  else .Loading

/-- Events dispatched on `window` by the controller. -/
inductive AppEvent where
  | walletConnected (w : Wallet)
  | walletDisconnected
deriving Repr, DecidableEq

/-- Presence of the named DOM regions the controller looks up by id /
selector. -/
structure Dom where
  loadingScreen : Bool
  authScreen : Bool
  mainContent : Bool
  progressBar : Bool
  loadingPercentage : Bool
deriving Repr, DecidableEq

/-- Controller state: the instance fields of `WalletAuthController`
(`isAuthenticated`, `connectedWallet`), the persisted storage, the
visible screen, the progress indicator (width of `#progressBar` as a
percentage and the text of `#loadingPercentage`), and the events
dispatched so far (in order). -/
structure CtrlState where
  isAuthenticated : Bool
  connectedWallet : Option Wallet
  storage : Stored
  screen : Screen
  progressPct : ℚ
  percentageText : String
  events : List AppEvent
deriving Repr, DecidableEq

/-! ## Interactive connect (`connectWallet`) in both variants -/

/-- `connectWallet` of `wallet-auth.js` (lines 375–452), settled state
after the scheduled callbacks run.  On adapter success: sets
`connectedWallet` and `isAuthenticated`, stores the connection
(`storeWalletConnection`, line 413), dispatches `walletConnected`, and
`transitionToMainContent` fires after 1500 ms (→ `Authenticated`).
On adapter failure (`catch`): the button shows the error then reverts;
no instance field, storage or screen changes. -/
def connectWallet (env : Env) (walletType : String) (s : CtrlState) :
    CtrlState :=
  match connectAdapter env walletType with
  | .ok w =>
    { s with
      connectedWallet := some w
      isAuthenticated := true
      storage := storeWalletConnection env.now w
      events := s.events ++ [.walletConnected w]
      screen := .Authenticated }
  | .error _ => s

/-- `connectWallet` of the duplicate controller (unnamed copy, lines
221–295), settled state.  Identical dispatch and adapters, but the
success branch performs no storage write (that variant has no
`storeWalletConnection`). -/
def connectWalletV0 (env : Env) (walletType : String) (s : CtrlState) :
    CtrlState :=
  match connectAdapter env walletType with
  | .ok w =>
    { s with
      connectedWallet := some w
      isAuthenticated := true
      events := s.events ++ [.walletConnected w]
      screen := .Authenticated }
  | .error _ => s

/-! ## Loading progress (`startLoadingSequence`) -/

/-- One progress sample (line 159 of `wallet-auth.js`, line 149 of the
duplicate): `Math.min((elapsed / loadingDuration) * 100, 100)`. -/
def progressAt (loadingDuration elapsed : ℚ) : ℚ :=
  min (elapsed / loadingDuration * 100) 100

/-- What one `updateProgress` invocation schedules next (lines 157–171):
below 100 it re-schedules itself after the 50 ms interval, otherwise it
schedules `transitionToAuth` after the 500 ms settle delay. -/
inductive LoadStep where
  | continueLoading (progress : ℚ)
  | scheduleAuthTransition (progress : ℚ)
deriving Repr, DecidableEq

/-- The branch of `updateProgress` on the sampled value. -/
def updateProgress (loadingDuration elapsed : ℚ) : LoadStep :=
  if progressAt loadingDuration elapsed < 100 then
    .continueLoading (progressAt loadingDuration elapsed)
  else .scheduleAuthTransition (progressAt loadingDuration elapsed)

/-! ## Force re-authentication in both variants -/

/-- `forceReauth` of `wallet-auth.js` (lines 644–692): clears the
instance fields, removes the stored record, dispatches
`walletDisconnected`; then, when the three screen regions exist, shows
the loading screen and — when the progress elements also exist — resets
the bar to `0%`, and restarts `startLoadingSequence` (whose first sample
at elapsed 0 likewise displays 0%). -/
def forceReauth (dom : Dom) (s : CtrlState) : CtrlState :=
  let s1 : CtrlState :=
    { s with
      isAuthenticated := false
      connectedWallet := none
      storage := clearStoredConnection
      events := s.events ++ [.walletDisconnected] }
  if dom.loadingScreen && dom.authScreen && dom.mainContent then
    let s2 : CtrlState := { s1 with screen := .Loading }
    if dom.progressBar && dom.loadingPercentage then
      { s2 with progressPct := 0, percentageText := "0%" }
    else s2
  else s1

/-- `forceReauth` of the duplicate controller (unnamed copy, lines
442–458): clears the instance fields and restarts the loading screen,
but performs no storage removal and dispatches no event.  The progress
display is only touched by `startLoadingSequence`'s first sample
(elapsed 0 → `0%`), which runs when all four of its elements exist. -/
def forceReauthV0 (dom : Dom) (s : CtrlState) : CtrlState :=
  let s1 : CtrlState :=
    { s with
      isAuthenticated := false
      connectedWallet := none }
  if dom.loadingScreen && dom.authScreen && dom.mainContent then
    let s2 : CtrlState := { s1 with screen := .Loading }
    if dom.progressBar && dom.loadingPercentage then
      { s2 with progressPct := 0, percentageText := "0%" }
    else s2
  else s1

/-! ## Helper lemmas -/

/-- Any wallet successfully returned by `connectPhantomBody` has equal
`publicKey` and `address` and type `"phantom"`. -/
theorem connectPhantomBody_ok (env : Env) (w : Wallet)
    (h : connectPhantomBody env = .ok w) :
    w.publicKey = w.address ∧ w.type = "phantom" := by
  unfold connectPhantomBody at h
  repeat' split at h
  all_goals (first
    | (injection h with h; refine ⟨?_, ?_⟩ <;> rw [← h])
    | simp_all [truthyStr])

/-- Any wallet successfully returned by `connectSolflareBody` has equal
`publicKey` and `address` and type `"solflare"`. -/
theorem connectSolflareBody_ok (env : Env) (w : Wallet)
    (h : connectSolflareBody env = .ok w) :
    w.publicKey = w.address ∧ w.type = "solflare" := by
  unfold connectSolflareBody at h
  repeat' split at h
  all_goals (first
    | (injection h with h; refine ⟨?_, ?_⟩ <;> rw [← h])
    | simp_all [truthyStr])

/-- Any wallet successfully returned by `connectMetaMaskBody` has equal
`publicKey` and `address` and type `"metamask"`. -/
theorem connectMetaMaskBody_ok (env : Env) (w : Wallet)
    (h : connectMetaMaskBody env = .ok w) :
    w.publicKey = w.address ∧ w.type = "metamask" := by
  unfold connectMetaMaskBody at h
  repeat' split at h
  all_goals (first
    | (injection h with h; refine ⟨?_, ?_⟩ <;> rw [← h])
    | simp_all [truthyStr])

/-- Any wallet successfully returned by any adapter through the
`connectWallet` dispatch has equal `publicKey` and `address`. -/
theorem connectAdapter_ok (env : Env) (t : String) (w : Wallet)
    (h : connectAdapter env t = .ok w) : w.publicKey = w.address := by
  unfold connectAdapter at h
  split_ifs at h
  · unfold connectPhantom at h
    cases hb : connectPhantomBody env with
    | ok w' =>
      rw [hb] at h
      cases h
      exact (connectPhantomBody_ok env _ hb).1
    | error e =>
      rw [hb] at h
      exact absurd h (by simp)
  · unfold connectSolflare at h
    cases hb : connectSolflareBody env with
    | ok w' =>
      rw [hb] at h
      cases h
      exact (connectSolflareBody_ok env _ hb).1
    | error e =>
      rw [hb] at h
      exact absurd h (by simp)
  · unfold connectMetaMask at h
    cases hb : connectMetaMaskBody env with
    | ok w' =>
      rw [hb] at h
      cases h
      exact (connectMetaMaskBody_ok env _ hb).1
    | error e =>
      rw [hb] at h
      exact absurd h (by simp)

/-- Any wallet produced by silent verification has equal `publicKey` and
`address`. -/
theorem verifyWalletConnection_some (env : Env) (ot : Option String)
    (w : Wallet) (h : verifyWalletConnection env ot = some w) :
    w.publicKey = w.address := by
  unfold verifyWalletConnection at h
  split_ifs at h
  all_goals (repeat' split at h)
  all_goals (first
    | (injection h with h; rw [← h])
    | simp_all [truthyStr])

/-! ## Concrete inputs used by witnesses and counterexamples -/

/-- Environment with no injected providers and clock at 100,000,000 ms. -/
def c1Env : Env := ⟨none, none, none, 100000000⟩

/-- A phantom Session Record created at epoch 0. -/
def c1Rec : StoredRecord := ⟨some "phantom", some 0, some "pk", some "pk"⟩

/-- Environment with no injected providers and clock at 1000 ms. -/
def c2Env : Env := ⟨none, none, none, 1000⟩

/-- A phantom Session Record created at 1000 ms (age 0 — unexpired). -/
def c2Rec : StoredRecord := ⟨some "phantom", some 1000, some "pk", some "pk"⟩

/-! ## C1 — expired records are discarded at startup -/

/-- C1: at startup, every persisted Session Record whose age exceeds
86,400,000 ms (`now - timestamp > 86,400,000`) is removed from persistent
storage by `checkExistingConnection`, which returns `false`; `init`
therefore proceeds to `Loading` and never to `Authenticated`. -/
theorem c1_expired_session_discarded (env : Env) (rec : StoredRecord)
    (ts : Int) (hts : rec.timestamp = some ts)
    (hold : env.now - ts > 86400000) :
    checkExistingConnection env (.record rec) =
      ⟨false, .absent, none, false⟩ ∧
    initScreen env (.record rec) = .Loading ∧
    initScreen env (.record rec) ≠ .Authenticated := by
  have hexp : env.now - ts > expiryMs := by simpa [expiryMs] using hold
  have h1 : checkExistingConnection env (.record rec) =
      ⟨false, .absent, none, false⟩ := by
    simp [checkExistingConnection, hts, hexp]
  refine ⟨h1, ?_, ?_⟩ <;> simp [initScreen, h1]

/-- Witness for C1 at a concrete expired record (age 100,000,000 ms). -/
theorem c1_expired_session_discarded_witness :
    checkExistingConnection c1Env (.record c1Rec) =
      ⟨false, .absent, none, false⟩ ∧
    initScreen c1Env (.record c1Rec) = .Loading ∧
    initScreen c1Env (.record c1Rec) ≠ .Authenticated :=
  c1_expired_session_discarded c1Env c1Rec 0 rfl (by decide)

/-! ## C2 — failed silent verification: Loading, but record retained -/

/-- C2 counterexample: a fresh (unexpired) phantom record while no
provider is installed, so silent verification fails.
`checkExistingConnection` returns `false` — the system enters `Loading` —
but the stored record is NOT discarded: storage still holds it, refuting
the claim that the record is removed from persistent storage. -/
theorem c2_failed_verification_keeps_record :
    checkExistingConnection c2Env (.record c2Rec) =
      ⟨false, .record c2Rec, none, false⟩ ∧
    (checkExistingConnection c2Env (.record c2Rec)).storage ≠ .absent ∧
    initScreen c2Env (.record c2Rec) = .Loading := by decide

/-- C2 amended: at startup, for every persisted unexpired Session Record
whose silent verification fails, `checkExistingConnection` returns
`false` and the system enters `Loading`, but the stored record is
retained in persistent storage — the source removes the record only on
expiry or on a parse error, not on a failed verification. -/
theorem c2_amended_failed_verification_enters_loading (env : Env)
    (rec : StoredRecord) (ts : Int) (hts : rec.timestamp = some ts)
    (hfresh : ¬env.now - ts > expiryMs)
    (hver : verifyWalletConnection env rec.walletType = none) :
    checkExistingConnection env (.record rec) =
      ⟨false, .record rec, none, false⟩ ∧
    initScreen env (.record rec) = .Loading := by
  have h1 : checkExistingConnection env (.record rec) =
      ⟨false, .record rec, none, false⟩ := by
    simp [checkExistingConnection, hts, hfresh, hver]
  exact ⟨h1, by simp [initScreen, h1]⟩

/-- Witness for the amended C2 at a concrete unexpired record with no
providers installed. -/
theorem c2_amended_failed_verification_witness :
    checkExistingConnection c2Env (.record c2Rec) =
      ⟨false, .record c2Rec, none, false⟩ ∧
    initScreen c2Env (.record c2Rec) = .Loading :=
  c2_amended_failed_verification_enters_loading c2Env c2Rec 1000 rfl
    (by decide) (by decide)

/-! ## C9 — malformed persisted records at startup -/

/-- Environment with no injected providers and clock at 1,000,000,000. -/
def c9Env : Env := ⟨none, none, none, 1000000000⟩

/-- The parse of the stored string `"{}"`: an object with none of the
expected fields. -/
def c9Rec : StoredRecord := ⟨none, none, none, none⟩

/-- C9 amended: every UNPARSEABLE persisted record (a stored string on
which `JSON.parse` or the subsequent field access throws) is discarded
from persistent storage and the system falls back to `Loading`, exactly
like an absent or expired record.  A record that parses but lacks the
expected fields also falls back to `Loading`, but is retained in storage
(see the counterexample), so the original claim's "otherwise corrupt"
case does not discard. -/
theorem c9_amended_unparseable_discarded (env : Env) (raw : String) :
    checkExistingConnection env (.malformed raw) =
      ⟨false, .absent, none, false⟩ ∧
    checkExistingConnection env (.malformed raw) =
      checkExistingConnection env .absent ∧
    initScreen env (.malformed raw) = .Loading :=
  ⟨rfl, rfl, rfl⟩

/-- C9 counterexample: the stored string `"{}"` parses to an object with
no fields (`c9Rec`).  Startup returns `false` and enters `Loading`, but
it leaves the corrupt record in persistent storage — it is not treated
identically to an absent or expired record, which would leave storage
with no record. -/
theorem c9_parsed_corrupt_record_retained :
    checkExistingConnection c9Env (.record c9Rec) =
      ⟨false, .record c9Rec, none, false⟩ ∧
    (checkExistingConnection c9Env (.record c9Rec)).storage ≠ .absent ∧
    initScreen c9Env (.record c9Rec) = .Loading := by decide

/-! ## C4 — loading-progress sampling -/

/-- Every progress sample is clamped: it never exceeds 100. -/
theorem progressAt_le_100 (d e : ℚ) : progressAt d e ≤ 100 := by
  unfold progressAt
  exact min_le_right _ _

/-- C4: during `Loading`, the sampled progress value
`min((elapsed / loadingDuration) * 100, 100)` is non-decreasing in
elapsed wall-clock time (so every sampling sequence is non-decreasing),
never exceeds 100, and equals exactly 100 at the sample whose branch
schedules the transition to `Authenticating` (`transitionToAuth`). -/
theorem c4_progress_monotone_clamped (d e e₁ e₂ : ℚ)
    (hd : 0 < d) (h12 : e₁ ≤ e₂) :
    progressAt d e₁ ≤ progressAt d e₂ ∧
    progressAt d e ≤ 100 ∧
    (∀ p, updateProgress d e = .scheduleAuthTransition p → p = 100) := by
  refine ⟨?_, progressAt_le_100 d e, ?_⟩
  · unfold progressAt
    have h1 : e₁ / d * 100 ≤ e₂ / d * 100 := by gcongr
    exact min_le_min h1 le_rfl
  · intro p hp
    unfold updateProgress at hp
    by_cases hlt : progressAt d e < 100
    · rw [if_pos hlt] at hp
      exact absurd hp (by simp)
    · rw [if_neg hlt] at hp
      injection hp with hp
      rw [← hp]
      exact le_antisymm (progressAt_le_100 d e) (not_lt.mp hlt)

/-- Witness for C4 with the default 2000 ms duration, comparing the
samples at 0 ms and 2500 ms; the 2500 ms sample schedules the transition
and its value is exactly 100. -/
theorem c4_progress_monotone_clamped_witness :
    (progressAt 2000 0 ≤ progressAt 2000 2500 ∧
     progressAt 2000 2500 ≤ 100 ∧
     (∀ p, updateProgress 2000 2500 = .scheduleAuthTransition p → p = 100)) ∧
    updateProgress 2000 2500 = .scheduleAuthTransition 100 := by
  constructor
  · exact c4_progress_monotone_clamped 2000 2500 0 2500 (by norm_num) (by norm_num)
  · norm_num [updateProgress, progressAt]

/-! ## C5 — provider error code -32002 ("already pending") -/

/-- A provider rejection carrying the "already pending" code -32002. -/
def pendingJsError : JsError :=
  ⟨some (-32002), "Already processing request. Please wait."⟩

/-- Phantom provider present whose interactive connect rejects with the
-32002 error. -/
def c5PhantomEnv : Env :=
  ⟨some ⟨true, .error pendingJsError, .ok none⟩, none, none, 0⟩

/-- Solflare provider present whose interactive connect rejects with the
-32002 error. -/
def c5SolflareEnv : Env :=
  ⟨none, none, some ⟨false, none, none, .error pendingJsError⟩, 0⟩

/-- MetaMask provider present whose interactive connect rejects with the
-32002 error. -/
def c5MetaMaskEnv : Env :=
  ⟨none, some ⟨true, .error pendingJsError, .ok []⟩, none, 0⟩

/-- C5 counterexample: when the Phantom or Solflare provider throws the
-32002 "already pending" error, the attempt fails with the generic
`ConnectionFailed` wrap of the provider message — not with the
`RequestAlreadyPending` failure (`'Connection request already pending'`),
contrary to the claim for every wallet type. -/
theorem c5_pending_code_generic_for_solana_adapters :
    connectPhantom c5PhantomEnv =
      .error "Connection failed: Already processing request. Please wait." ∧
    connectSolflare c5SolflareEnv =
      .error "Connection failed: Already processing request. Please wait." ∧
    connectPhantom c5PhantomEnv ≠
      .error "Connection request already pending" ∧
    connectSolflare c5SolflareEnv ≠
      .error "Connection request already pending" := by decide

/-- C5 amended: only the MetaMask adapter maps provider error code
-32002 to `RequestAlreadyPending` (`'Connection request already
pending'`); the Phantom and Solflare adapters map the same code (when the
message carries no rejection substring) to the generic `ConnectionFailed`
wrap of the provider's message. -/
theorem c5_amended_pending_code_metamask_only
    (e : JsError) (hcode : e.code = some (-32002))
    (hnr1 : strIncludes "User rejected" e.message = false)
    (hnr2 : strIncludes "rejected" e.message = false)
    (env1 env2 env3 : Env)
    (sol : SolanaProvider) (sf : SolflareProvider) (eth : EthereumProvider)
    (h1 : env1.solana = some sol) (h1p : sol.isPhantom = true)
    (h1c : sol.connectResult = .error e)
    (h2 : env2.solflare = some sf) (h2c : sf.connectResult = .error e)
    (h3 : env3.ethereum = some eth) (h3m : eth.isMetaMask = true)
    (h3c : eth.requestAccountsResult = .error e) :
    connectMetaMask env3 = .error "Connection request already pending" ∧
    connectPhantom env1 = .error ("Connection failed: " ++ e.message) ∧
    connectSolflare env2 = .error ("Connection failed: " ++ e.message) := by
  have hc1 : ((some (-32002) : Option Int) == some 4001) = false := by decide
  have hc2 : ((some (-32002) : Option Int) == some (-32002)) = true := by decide
  refine ⟨?_, ?_, ?_⟩
  · simp [connectMetaMask, connectMetaMaskBody, h3, h3m, h3c, metamaskCatch,
      hcode, hc1, hc2]
  · simp [connectPhantom, connectPhantomBody, h1, h1p, h1c, phantomCatch,
      hcode, hc1, hnr1]
  · simp [connectSolflare, connectSolflareBody, h2, h2c, solflareCatch,
      hcode, hc1, hnr2]

/-- Witness for the amended C5 at the three concrete environments whose
providers all throw the -32002 error. -/
theorem c5_amended_pending_code_witness :
    connectMetaMask c5MetaMaskEnv =
      .error "Connection request already pending" ∧
    connectPhantom c5PhantomEnv =
      .error ("Connection failed: " ++ pendingJsError.message) ∧
    connectSolflare c5SolflareEnv =
      .error ("Connection failed: " ++ pendingJsError.message) :=
  c5_amended_pending_code_metamask_only pendingJsError rfl (by decide)
    (by decide) c5PhantomEnv c5SolflareEnv c5MetaMaskEnv
    ⟨true, .error pendingJsError, .ok none⟩
    ⟨false, none, none, .error pendingJsError⟩
    ⟨true, .error pendingJsError, .ok []⟩
    rfl rfl rfl rfl rfl rfl rfl rfl

/-! ## C6 — missing provider on an interactive attempt -/

/-- Modelled from the spec's error taxonomy (§7), as a refinement map
onto the source's string-valued errors: an adapter failure belongs to the
`ProviderNotFound` class when its diagnostic reports the wallet as not
detected.  The source has no structured error classes — each adapter
throws an `Error` whose message is the classifier — and the
provider-absent failure is the one carrying the
`'<Wallet> wallet not detected. Please ensure it is installed and
enabled.'` diagnostic, re-wrapped by the adapter's catch into the
`'Connection failed: ...'` form. -/
def isProviderNotFoundMsg (msg : String) : Bool :=
  strIncludes "wallet not detected" msg

/-- C6: for every wallet type, when the corresponding provider object is
undefined at the time of an interactive Connect Attempt, the attempt
fails with the provider-not-found diagnostic (`ProviderNotFound`) and no
Session Record is written: persistent storage is unchanged by the failed
attempt. -/
theorem c6_missing_provider_fails_without_write (env : Env) (s : CtrlState) :
    (env.solana = none →
      connectAdapter env "phantom" =
        .error ("Connection failed: " ++ phantomNotDetectedMsg) ∧
      isProviderNotFoundMsg ("Connection failed: " ++ phantomNotDetectedMsg)
        = true ∧
      (connectWallet env "phantom" s).storage = s.storage) ∧
    (env.solflare = none →
      connectAdapter env "solflare" =
        .error ("Connection failed: " ++ solflareNotDetectedMsg) ∧
      isProviderNotFoundMsg ("Connection failed: " ++ solflareNotDetectedMsg)
        = true ∧
      (connectWallet env "solflare" s).storage = s.storage) ∧
    (env.ethereum = none →
      connectAdapter env "metamask" =
        .error ("Connection failed: " ++ metamaskNotDetectedMsg) ∧
      isProviderNotFoundMsg ("Connection failed: " ++ metamaskNotDetectedMsg)
        = true ∧
      (connectWallet env "metamask" s).storage = s.storage) := by
  refine ⟨?_, ?_, ?_⟩
  · intro h
    have herr : connectAdapter env "phantom" =
        .error ("Connection failed: " ++ phantomNotDetectedMsg) := by
      have hcatch : phantomCatch ⟨none, phantomNotDetectedMsg⟩ =
          "Connection failed: " ++ phantomNotDetectedMsg := by decide
      simp [connectAdapter, connectPhantom, connectPhantomBody, h, hcatch]
    exact ⟨herr, by decide, by simp [connectWallet, herr]⟩
  · intro h
    have herr : connectAdapter env "solflare" =
        .error ("Connection failed: " ++ solflareNotDetectedMsg) := by
      have hcatch : solflareCatch ⟨none, solflareNotDetectedMsg⟩ =
          "Connection failed: " ++ solflareNotDetectedMsg := by decide
      simp [connectAdapter, connectSolflare, connectSolflareBody, h, hcatch]
    exact ⟨herr, by decide, by simp [connectWallet, herr]⟩
  · intro h
    have herr : connectAdapter env "metamask" =
        .error ("Connection failed: " ++ metamaskNotDetectedMsg) := by
      have hcatch : metamaskCatch ⟨none, metamaskNotDetectedMsg⟩ =
          "Connection failed: " ++ metamaskNotDetectedMsg := by decide
      simp [connectAdapter, connectMetaMask, connectMetaMaskBody, h, hcatch]
    exact ⟨herr, by decide, by simp [connectWallet, herr]⟩

/-- Environment with none of the three providers injected. -/
def c6Env : Env := ⟨none, none, none, 777⟩

/-- A controller state on the wallet-selection screen, with a prior
stored record, used to observe that a failed attempt changes nothing. -/
def c6State : CtrlState :=
  ⟨false, none, .record ⟨some "metamask", some 5, some "a", some "a"⟩,
    .Authenticating, 100, "100%", []⟩

/-- Witness for C6 at the empty environment: all three adapters fail
with the not-detected diagnostic and the stored record is untouched. -/
theorem c6_missing_provider_witness :
    (connectAdapter c6Env "phantom" =
        .error ("Connection failed: " ++ phantomNotDetectedMsg) ∧
      isProviderNotFoundMsg ("Connection failed: " ++ phantomNotDetectedMsg)
        = true ∧
      (connectWallet c6Env "phantom" c6State).storage = c6State.storage) ∧
    (connectAdapter c6Env "solflare" =
        .error ("Connection failed: " ++ solflareNotDetectedMsg) ∧
      isProviderNotFoundMsg ("Connection failed: " ++ solflareNotDetectedMsg)
        = true ∧
      (connectWallet c6Env "solflare" c6State).storage = c6State.storage) ∧
    (connectAdapter c6Env "metamask" =
        .error ("Connection failed: " ++ metamaskNotDetectedMsg) ∧
      isProviderNotFoundMsg ("Connection failed: " ++ metamaskNotDetectedMsg)
        = true ∧
      (connectWallet c6Env "metamask" c6State).storage = c6State.storage) := by
  obtain ⟨h1, h2, h3⟩ := c6_missing_provider_fails_without_write c6Env c6State
  exact ⟨h1 rfl, h2 rfl, h3 rfl⟩

/-! ## C7 — Solflare fallback normalization -/

/-- Truthy option values yield a non-empty string under `getD`. -/
theorem truthyStr_getD_ne (o : Option String) (h : truthyStr o = true) :
    o.getD "" ≠ "" := by
  cases o with
  | none => simp [truthyStr] at h
  | some s => simpa [truthyStr] using h

/-- A non-empty string is truthy. -/
theorem truthyStr_some_ne (s : String) (h : s ≠ "") :
    truthyStr (some s) = true := by
  simp [truthyStr, h]

/-- C7: for the Solflare Connect Attempt, for every provider response
lacking a truthy direct `publicKey` field, if either the provider's own
`publicKey` property or the provider's nested `wallet.publicKey` property
is present and non-empty, `connectSolflare` still returns a normalized
non-empty `{type, address}` result instead of failing. -/
theorem c7_solflare_fallback_normalization (env : Env)
    (sf : SolflareProvider) (respPk : Option String)
    (hsf : env.solflare = some sf) (hconn : sf.connectResult = .ok respPk)
    (hmiss : truthyStr respPk = false)
    (hfall : truthyStr sf.publicKey = true ∨
      (∃ wpk, sf.wallet = some (some wpk) ∧ wpk ≠ "")) :
    ∃ w, connectSolflare env = .ok w ∧ w.type = "solflare" ∧
      w.address ≠ "" ∧ w.publicKey = w.address := by
  have hbody : ∃ pk, solflareFallbackKey sf respPk = some pk ∧ pk ≠ "" := by
    by_cases hpk : truthyStr sf.publicKey = true
    · cases hsp : sf.publicKey with
      | none => rw [hsp] at hpk; simp [truthyStr] at hpk
      | some str =>
        rw [hsp] at hpk
        refine ⟨str, ?_, ?_⟩
        · simp [solflareFallbackKey, hmiss, hsp, hpk]
        · simpa [truthyStr] using hpk
    · rcases hfall with hl | ⟨wpk, hw, hne⟩
      · exact absurd hl hpk
      · have hpkf : truthyStr sf.publicKey = false := by
          cases h' : truthyStr sf.publicKey
          · rfl
          · exact absurd h' hpk
        refine ⟨wpk, ?_, hne⟩
        simp [solflareFallbackKey, hmiss, hpkf, hw, truthyStr_some_ne wpk hne]
  obtain ⟨pk, hkey, hne⟩ := hbody
  have htr : truthyStr (solflareFallbackKey sf respPk) = true := by
    rw [hkey]
    exact truthyStr_some_ne pk hne
  refine ⟨⟨"solflare", pk, pk⟩, ?_, rfl, hne, rfl⟩
  have hb : connectSolflareBody env = .ok ⟨"solflare", pk, pk⟩ := by
    simp [connectSolflareBody, hsf, hconn, htr, hkey,
      truthyStr_some_ne pk hne]
  simp [connectSolflare, hb]

/-- Solflare provider whose connect response carries no public key, whose
own `publicKey` property is absent, and whose nested wallet object holds
the key. -/
def c7Prov : SolflareProvider := ⟨false, none, some (some "WKEY"), .ok none⟩

/-- Environment exposing only `c7Prov`. -/
def c7Env : Env := ⟨none, none, some c7Prov, 0⟩

/-- Witness for C7: the nested `wallet.publicKey` fallback produces the
normalized non-empty result. -/
theorem c7_solflare_fallback_witness :
    ∃ w, connectSolflare c7Env = .ok w ∧ w.type = "solflare" ∧
      w.address ≠ "" ∧ w.publicKey = w.address :=
  c7_solflare_fallback_normalization c7Env c7Prov none rfl rfl rfl
    (Or.inr ⟨"WKEY", rfl, by decide⟩)

/-! ## C3 — force re-authentication -/

/-- All five DOM regions present. -/
def c3DomAll : Dom := ⟨true, true, true, true, true⟩

/-- A connected phantom wallet. -/
def c3Wallet : Wallet := ⟨"phantom", "PK", "PK"⟩

/-- An `Authenticated` controller state holding `c3Wallet` and its
persisted record. -/
def c3State : CtrlState :=
  ⟨true, some c3Wallet,
    .record ⟨some "phantom", some 0, some "PK", some "PK"⟩,
    .Authenticated, 100, "100%", []⟩

/-- C3 counterexample: `forceReauth` of the duplicate controller (unnamed
copy, lines 442–458) invoked from an `Authenticated` state: it restarts
at `Loading` but leaves the persisted Session Record in storage and
dispatches no disconnected notification, refuting the claim for that
variant of the controller. -/
theorem c3_v0_forceReauth_keeps_record_no_event :
    (forceReauthV0 c3DomAll c3State).screen = .Loading ∧
    (forceReauthV0 c3DomAll c3State).storage ≠ .absent ∧
    AppEvent.walletDisconnected ∉ (forceReauthV0 c3DomAll c3State).events := by
  refine ⟨rfl, ?_, ?_⟩ <;> decide

/-- C3 amended: for the `wallet-auth-system/wallet-auth.js` controller
the claim holds — for every prior wallet type and any `Authenticated`
state (with the named DOM regions present), `forceReauth` ends at
`Loading` with no persisted Session Record remaining, a disconnected
notification dispatched, and the progress indicator reset to 0% — but
the duplicate controller variant clears no storage and dispatches no
notification (see the counterexample). -/
theorem c3_amended_forceReauth_clears_and_restarts (dom : Dom)
    (s : CtrlState) (w : Wallet) (_hw : s.connectedWallet = some w)
    (_hauth : s.screen = .Authenticated)
    (hl : dom.loadingScreen = true) (ha : dom.authScreen = true)
    (hm : dom.mainContent = true) (hp : dom.progressBar = true)
    (hpc : dom.loadingPercentage = true) :
    (forceReauth dom s).screen = .Loading ∧
    (forceReauth dom s).storage = .absent ∧
    AppEvent.walletDisconnected ∈ (forceReauth dom s).events ∧
    (forceReauth dom s).progressPct = 0 ∧
    (forceReauth dom s).percentageText = "0%" ∧
    (forceReauth dom s).isAuthenticated = false ∧
    (forceReauth dom s).connectedWallet = none := by
  simp [forceReauth, hl, ha, hm, hp, hpc, clearStoredConnection]

/-- Witness for the amended C3 at the concrete `Authenticated` state. -/
theorem c3_amended_forceReauth_witness :
    (forceReauth c3DomAll c3State).screen = .Loading ∧
    (forceReauth c3DomAll c3State).storage = .absent ∧
    AppEvent.walletDisconnected ∈ (forceReauth c3DomAll c3State).events ∧
    (forceReauth c3DomAll c3State).progressPct = 0 ∧
    (forceReauth c3DomAll c3State).percentageText = "0%" ∧
    (forceReauth c3DomAll c3State).isAuthenticated = false ∧
    (forceReauth c3DomAll c3State).connectedWallet = none :=
  c3_amended_forceReauth_clears_and_restarts c3DomAll c3State c3Wallet
    rfl rfl rfl rfl rfl rfl rfl

/-! ## C8 — successful connects and the Session Record write -/

/-- Phantom provider whose interactive connect resolves with key
`"PK8"`. -/
def c8Env : Env :=
  ⟨some ⟨true, .ok (some "PK8"), .ok none⟩, none, none, 999999⟩

/-- A stale stored record from an earlier session (timestamp 5). -/
def c8Stale : StoredRecord := ⟨some "solflare", some 5, some "OLD", some "OLD"⟩

/-- Controller state on the selection screen with the stale record. -/
def c8State : CtrlState :=
  ⟨false, none, .record c8Stale, .Authenticating, 100, "100%", []⟩

/-- C8 counterexample: in the duplicate controller (unnamed copy, lines
221–295) a successful phantom Connect Attempt authenticates but writes
nothing to persistent storage — the stale stored record (timestamp 5,
not the current 999999) survives, refuting the claim that every
successful attempt writes a new current-timestamp record. -/
theorem c8_v0_success_writes_nothing :
    connectAdapter c8Env "phantom" = .ok ⟨"phantom", "PK8", "PK8"⟩ ∧
    (connectWalletV0 c8Env "phantom" c8State).isAuthenticated = true ∧
    (connectWalletV0 c8Env "phantom" c8State).storage = .record c8Stale ∧
    (connectWalletV0 c8Env "phantom" c8State).storage ≠
      storeWalletConnection c8Env.now ⟨"phantom", "PK8", "PK8"⟩ := by
  refine ⟨?_, ?_, ?_, ?_⟩ <;> decide

/-- C8 amended: in the `wallet-auth-system/wallet-auth.js` controller,
every successful interactive Connect Attempt, for every wallet type,
writes a new Session Record carrying the current timestamp,
unconditionally overwriting whatever the single storage key held before;
the duplicate controller variant performs no persistence at all (see the
counterexample). -/
theorem c8_amended_success_overwrites_store (env : Env) (t : String)
    (s : CtrlState) (w : Wallet) (h : connectAdapter env t = .ok w) :
    (connectWallet env t s).storage =
      .record ⟨some w.type, some env.now, some w.publicKey, some w.address⟩ := by
  simp [connectWallet, h, storeWalletConnection]

/-- Witness for the amended C8: the successful phantom connect replaces
the stale record with a fresh one stamped with the current clock. -/
theorem c8_amended_success_overwrites_witness :
    (connectWallet c8Env "phantom" c8State).storage =
      .record ⟨some "phantom", some 999999, some "PK8", some "PK8"⟩ :=
  c8_amended_success_overwrites_store c8Env "phantom" c8State
    ⟨"phantom", "PK8", "PK8"⟩ (by decide)

/-! ## C10 — publicKey and address always coincide -/

/-- C10: every Connection Result produced by the three interactive
adapters (through the `connectWallet` dispatch) and by silent
verification carries `publicKey = address`, and hence every Session
Record written by a successful connect stores the same string in its
`publicKey` and `address` fields. -/
theorem c10_publicKey_eq_address (env : Env) (t : String)
    (ot : Option String) (w w' : Wallet) (s : CtrlState)
    (rec : StoredRecord) :
    (connectAdapter env t = .ok w → w.publicKey = w.address) ∧
    (verifyWalletConnection env ot = some w' → w'.publicKey = w'.address) ∧
    (connectAdapter env t = .ok w →
      (connectWallet env t s).storage = .record rec →
      rec.publicKey = rec.address) := by
  refine ⟨connectAdapter_ok env t w, verifyWalletConnection_some env ot w', ?_⟩
  intro h hst
  have hpa := connectAdapter_ok env t w h
  simp only [connectWallet, h, storeWalletConnection] at hst
  injection hst with hst
  rw [← hst]
  simp [hpa]

/-- Phantom provider resolving both interactive and trusted connects with
key `"PK10"`. -/
def c10Env : Env :=
  ⟨some ⟨true, .ok (some "PK10"), .ok (some "PK10")⟩, none, none, 42⟩

/-- A pristine controller state. -/
def c10State : CtrlState := ⟨false, none, .absent, .Authenticating, 0, "0%", []⟩

/-- Witness for C10 at a concrete phantom environment: the interactive
result, the silent-verification result, and the stored record all carry
matching `publicKey`/`address`. -/
theorem c10_publicKey_eq_address_witness :
    (⟨"phantom", "PK10", "PK10"⟩ : Wallet).publicKey =
      (⟨"phantom", "PK10", "PK10"⟩ : Wallet).address ∧
    (⟨"phantom", "PK10", "PK10"⟩ : Wallet).publicKey =
      (⟨"phantom", "PK10", "PK10"⟩ : Wallet).address ∧
    (⟨some "phantom", some 42, some "PK10", some "PK10"⟩ :
      StoredRecord).publicKey =
      (⟨some "phantom", some 42, some "PK10", some "PK10"⟩ :
        StoredRecord).address := by
  obtain ⟨h1, h2, h3⟩ := c10_publicKey_eq_address c10Env "phantom"
    (some "phantom") ⟨"phantom", "PK10", "PK10"⟩ ⟨"phantom", "PK10", "PK10"⟩
    c10State ⟨some "phantom", some 42, some "PK10", some "PK10"⟩
  exact ⟨h1 (by decide), h2 (by decide), h3 (by decide) (by decide)⟩

end WalletAuth
